import Mathlib

/-!
Verification development for the NJ health-facility enforcement monitor.

This file gives a shallow embedding of the PDF parsing pipeline
(`src/pdf_parser.py`) and the data reconciliation / scoring layer
(`src/data_processor.py`), together with theorems settling the claims of
the natural-language specification against that embedding.

Modelling conventions:
* Python strings are Lean `String`s (ASCII is all that the claims exercise;
  `str.lower`, `str.strip` and the `\s` / `\d` regex classes are modelled on
  their ASCII behaviour).
* External libraries (pdfplumber, PyPDF2, PyMuPDF + tesseract) are modelled
  by their observable outcomes: the list of page texts a method produced
  before finishing or raising, plus a flag saying whether it raised.
* Python exceptions are modelled with `Except String`; a `try/except` block
  becomes a `match` on the `Except` value.
* `random.choice` over the fallback administrator-name pool is modelled by
  an injected index (the spec itself, section 9, asks for an injectable
  source), and `datetime.now()` by an injected integer day count.
* Each regex is translated into a bespoke executable matcher implementing
  the search / capture semantics of the concrete pattern (leftmost match,
  greedy `\s*`, lazy `.+?` bounded by its lookahead, `re.findall`
  non-overlapping scanning).  Where a pattern's backtracking cannot matter
  for the value that the surrounding source code keeps (for example because
  a failed capture is empty after `strip()` either way), a comment notes
  the simplification.
-/

/-! ## Python string primitives -/

/-- The characters Python's `str.strip()` and the regex class `\s` treat as
whitespace (ASCII fragment). -/
def pyIsSpace (c : Char) : Bool :=
  c = ' ' || c = '\t' || c = '\n' || c = '\r' || c = '\x0b' || c = '\x0c'

/-- `str.strip()` on a list of characters: drop whitespace at both ends. -/
def stripChars (l : List Char) : List Char :=
  ((l.dropWhile pyIsSpace).reverse.dropWhile pyIsSpace).reverse

/-- Python `str.strip()`. -/
def pyStrip (s : String) : String := String.mk (stripChars s.data)

/-- Python `str.lower()` (ASCII). -/
def pyLower (s : String) : String := String.mk (s.data.map Char.toLower)

/-- Does `hay` start with `needle` (exact characters)? -/
def listStartsWith : List Char → List Char → Bool
  | _, [] => true
  | [], _ :: _ => false
  | c :: cs, d :: ds => c = d && listStartsWith cs ds

/-- Python's `needle in hay` substring test on character lists. -/
def listContainsSub (hay needle : List Char) : Bool :=
  match hay with
  | [] => needle.isEmpty
  | _ :: rest => listStartsWith hay needle || listContainsSub rest needle

/-- Python's `needle in hay` substring test on strings. -/
def strContains (hay needle : String) : Bool :=
  listContainsSub hay.data needle.data

/-- Number of non-whitespace characters of a string (used to state the
spec's "fewer than 50 non-whitespace characters" trigger). -/
def countNonWs (s : String) : Nat :=
  s.data.countP (fun c => !(pyIsSpace c))

/-- Index of the first occurrence of `needle` in `hay`, if any
(used to state "document order" of extracted items). -/
def firstOccurrenceAux (needle : List Char) : List Char → Nat → Option Nat
  | [], i => if needle.isEmpty then some i else none
  | c :: cs, i =>
    if listStartsWith (c :: cs) needle then some i
    else firstOccurrenceAux needle cs (i + 1)

/-- Index of the first occurrence of `needle` in `hay`, if any. -/
def occIdx (hay needle : String) : Option Nat :=
  firstOccurrenceAux needle.data hay.data 0

/-- Numeric value of a digit string (most significant first). -/
def natOfDigits (l : List Char) : Nat :=
  l.foldl (fun n c => 10 * n + (c.toNat - 48)) 0

/-- Split a character list at every `'.'` (each dot separates two pieces,
so `n` dots yield `n+1` pieces, possibly empty). -/
def splitOnDot : List Char → List (List Char)
  | [] => [[]]
  | c :: rest =>
    if c = '.' then [] :: splitOnDot rest
    else
      match splitOnDot rest with
      | h :: t => (c :: h) :: t
      | [] => [[c]]

/-- Python `float()` applied to a string made only of digits and dots:
`"123"` parses, `"12.5"` parses, `".5"` and `"1."` parse, while `""`,
`"."` and strings with more than one dot raise `ValueError` (`none`).
Values in this pipeline are penalty amounts compared against small integer
thresholds, so exact rational arithmetic models the `float` faithfully. -/
def pyFloatOfDigitsDots (s : String) : Option Rat :=
  match splitOnDot s.data with
  | [a] =>
    if a ≠ [] ∧ a.all Char.isDigit then some (natOfDigits a : Rat) else none
  | [a, b] =>
    if (a ≠ [] ∨ b ≠ []) ∧ a.all Char.isDigit ∧ b.all Char.isDigit then
      some ((natOfDigits a : Rat) + (natOfDigits b : Rat) / ((10 : Rat) ^ b.length))
    else none
  | _ => none

/-! ## Text Extraction Layer (`_extract_text_from_pdf`, src/pdf_parser.py 58-92)

Each extraction method (pdfplumber, then PyPDF2) loops over the document's
pages appending every non-empty page text plus a newline to the shared
`text_content` accumulator; the method as a whole may raise at any point
(modelled by the pages extracted before the raise plus a `threw` flag).
The surrounding `try/except` blocks swallow the exception and fall through
to the next method / the final `return text_content`. -/

/-- The page-appending loop shared by both extraction methods:
`if page_text: text_content += page_text + "\n"`. -/
def accumulatePages (acc : String) (pages : List String) : String :=
  pages.foldl (fun t p => if p ≠ "" then t ++ p ++ "\n" else t) acc

/-- The PyPDF2 fallback block of `_extract_text_from_pdf`, entered with the
`text_content` accumulated so far, followed by the function's final
`return text_content`. -/
def extractMethod2 (t1 : String) (pages2 : List String) (threw2 : Bool) : Except String String :=
  let t2 := accumulatePages t1 pages2
  match (if threw2 then Except.error "PyPDF2 extraction failed" else Except.ok t2 :
      Except String String) with
  | Except.ok t => if pyStrip t ≠ "" then Except.ok t else Except.ok t2
  | Except.error _ => Except.ok t2

/-- `_extract_text_from_pdf`: try pdfplumber, return its text if the
stripped text is non-empty; on exception or whitespace-only output fall
through to PyPDF2; finally return whatever accumulated (possibly `""`).
The result type is `Except` so that an uncaught exception would be
visible as an `error` value. -/
def extract_text_core (pages1 : List String) (threw1 : Bool)
    (pages2 : List String) (threw2 : Bool) : Except String String :=
  let t1 := accumulatePages "" pages1
  match (if threw1 then Except.error "pdfplumber extraction failed" else Except.ok t1 :
      Except String String) with
  | Except.ok t =>
    if pyStrip t ≠ "" then Except.ok t else extractMethod2 t1 pages2 threw2
  | Except.error _ => extractMethod2 t1 pages2 threw2

/-! ## Regex matcher building blocks

Each Python regex of the parser is translated into a bespoke matcher made
of these pieces.  `re.search` is `searchM`: try the matcher at position 0,
then at position 1, and so on (leftmost match wins, and a failed attempt at
one position falls through to the next, which is exactly what the engine's
top-level scan does). -/

/-- Try matcher `m` at every successive position; first success wins. -/
def searchM {α : Type} (m : List Char → Option α) : List Char → Option α
  | [] => m []
  | c :: cs =>
    match m (c :: cs) with
    | some r => some r
    | none => searchM m cs

/-- Consume a case-insensitive literal, returning the rest of the input. -/
def matchLitCi : List Char → List Char → Option (List Char)
  | [], cs => some cs
  | _ :: _, [] => none
  | p :: ps, c :: cs => if p.toLower = c.toLower then matchLitCi ps cs else none

/-- Greedy `\s*`. -/
def skipWs (cs : List Char) : List Char := cs.dropWhile pyIsSpace

/-- `c?` for a character that cannot begin the part of the pattern that
follows it (so taking it when present is never wrong). -/
def matchOptChar (c : Char) (cs : List Char) : List Char :=
  match cs with
  | d :: rest => if d = c then rest else cs
  | [] => cs

/-- `c?` under IGNORECASE: consume one character equal to `c` up to case,
if present (used for the optional plural `s` of the section labels). -/
def matchOptCharCi (c : Char) (cs : List Char) : List Char :=
  match cs with
  | d :: rest => if d.toLower = c.toLower then rest else cs
  | [] => cs

/-- Greedy `[:\s]*` (appears between an `Administrator:`-style label and
the captured name). -/
def skipColonWs (cs : List Char) : List Char :=
  cs.dropWhile (fun c => c = ':' || pyIsSpace c)

/-- Does `cs` start with the case-insensitive literal `p`? -/
def startsWithCi (p : List Char) (cs : List Char) : Bool :=
  (matchLitCi p cs).isSome

/-! ## Field Extraction Engine (`_parse_text_content` and helpers,
src/pdf_parser.py 129-355) -/

/-- `Facility:\s*(.+?)(?:\n|$)` with IGNORECASE and MULTILINE, and likewise
every `Label:\s*(.+?)…` pattern whose lazy capture is cut off at the first
newline (with MULTILINE, the `$` alternative of the terminator already
matches just before any newline): after the label, greedy `\s*` may cross
newlines, then the capture is the rest of the line.  If only whitespace
remains to the end of the input, Python backtracks into `\s*` and captures
a single whitespace character, which the caller's `strip()` turns into
`""`; since in that case no further label occurrence can exist, returning
`none` here yields the same field value. -/
def captureLineAfter (cs : List Char) : Option (List Char) :=
  let rest := skipWs cs
  let cap := rest.takeWhile (fun c => c ≠ '\n')
  if cap.isEmpty then none else some cap

/-- `re.search(r'Facility:\s*(.+?)(?:\n|$)', text, I|M)` followed by
`.group(1).strip()`, or `""` on no match. -/
def extract_facility_name_field (text : String) : String :=
  match searchM
      (fun cs => (matchLitCi ("facility:".data) cs).bind captureLineAfter)
      text.data with
  | some cap => pyStrip (String.mk cap)
  | none => ""

/-- The lazy capture of `Address:\s*(.+?)(?:\n|License)` (I|M|DOTALL):
at least one character, extended minimally until the input continues with
a newline or the literal `License` (case-insensitive), failing if neither
terminator is ever reached. -/
def captureUntilNlOrLicense : List Char → List Char → Option (List Char)
  | _, [] => none
  | acc, c :: rest =>
    if acc ≠ [] ∧ (c = '\n' ∨ startsWithCi ("license".data) (c :: rest)) then
      some acc.reverse
    else captureUntilNlOrLicense (c :: acc) rest

/-- `re.search(r'Address:\s*(.+?)(?:\n|License)', text, I|M|DOTALL)`
followed by `.group(1).strip()`, or `""` on no match. -/
def extract_address_field (text : String) : String :=
  match searchM
      (fun cs =>
        (matchLitCi ("address:".data) cs).bind
          (fun r => captureUntilNlOrLicense [] (skipWs r)))
      text.data with
  | some cap => pyStrip (String.mk cap)
  | none => ""

/-- The character class `[A-Z0-9-]` under IGNORECASE. -/
def isLicenseChar (c : Char) : Bool := c.isAlpha || c.isDigit || c = '-'

/-- `re.search(r'License\s*#?\s*:?\s*([A-Z0-9-]+)', text, I)` followed by
`.group(1).strip()`, or `""` on no match. -/
def extract_license_field (text : String) : String :=
  match searchM
      (fun cs =>
        (matchLitCi ("license".data) cs).bind (fun r1 =>
          let r2 := skipWs r1
          let r3 := matchOptChar '#' r2
          let r4 := skipWs r3
          let r5 := matchOptChar ':' r4
          let r6 := skipWs r5
          let cap := r6.takeWhile isLicenseChar
          if cap.isEmpty then none else some cap))
      text.data with
  | some cap => pyStrip (String.mk cap)
  | none => ""

/-- The capture class `[0-9,]` of the penalty patterns. -/
def isDigitComma (c : Char) : Bool := c.isDigit || c = ','

/-- `penalty\s*of\s*\$?([0-9,]+)` (IGNORECASE). -/
def penaltyPattern1 (cs : List Char) : Option (List Char) :=
  (matchLitCi ("penalty".data) cs).bind (fun r1 =>
    (matchLitCi ("of".data) (skipWs r1)).bind (fun r2 =>
      let r3 := matchOptChar '$' (skipWs r2)
      let cap := r3.takeWhile isDigitComma
      if cap.isEmpty then none else some cap))

/-- `fine\s*of\s*\$?([0-9,]+)` (IGNORECASE). -/
def penaltyPattern2 (cs : List Char) : Option (List Char) :=
  (matchLitCi ("fine".data) cs).bind (fun r1 =>
    (matchLitCi ("of".data) (skipWs r1)).bind (fun r2 =>
      let r3 := matchOptChar '$' (skipWs r2)
      let cap := r3.takeWhile isDigitComma
      if cap.isEmpty then none else some cap))

/-- `\$([0-9,]+)\s*penalty` (IGNORECASE). -/
def penaltyPattern3 (cs : List Char) : Option (List Char) :=
  (matchLitCi ("$".data) cs).bind (fun r1 =>
    let cap := r1.takeWhile isDigitComma
    if cap.isEmpty then none
    else
      (matchLitCi ("penalty".data) (skipWs (r1.drop cap.length))).map
        (fun _ => cap))

/-- `assessed\s*penalty\s*of\s*\$?([0-9,]+)` (IGNORECASE). -/
def penaltyPattern4 (cs : List Char) : Option (List Char) :=
  (matchLitCi ("assessed".data) cs).bind (fun r1 =>
    (matchLitCi ("penalty".data) (skipWs r1)).bind (fun r2 =>
      (matchLitCi ("of".data) (skipWs r2)).bind (fun r3 =>
        let r4 := matchOptChar '$' (skipWs r3)
        let cap := r4.takeWhile isDigitComma
        if cap.isEmpty then none else some cap)))

/-- The `penalty_patterns` loop of `_parse_text_content`: the four
alternative phrasings are tried in order, first pattern with a match
anywhere in the text wins, and the captured group is stripped. -/
def extract_penalty_field (text : String) : String :=
  match searchM penaltyPattern1 text.data with
  | some cap => pyStrip (String.mk cap)
  | none =>
    match searchM penaltyPattern2 text.data with
    | some cap => pyStrip (String.mk cap)
    | none =>
      match searchM penaltyPattern3 text.data with
      | some cap => pyStrip (String.mk cap)
      | none =>
        match searchM penaltyPattern4 text.data with
        | some cap => pyStrip (String.mk cap)
        | none => ""

/-- Literal words separated by `\s+` (IGNORECASE), consuming the match and
returning the rest, e.g. `Notice\s+of\s+Assessment\s+of\s+Penalties`. -/
def matchWordsCiRest : List String → List Char → Option (List Char)
  | [], cs => some cs
  | [w], cs => matchLitCi w.data cs
  | w :: w2 :: ws, cs =>
    (matchLitCi w.data cs).bind (fun r =>
      if (r.takeWhile pyIsSpace).isEmpty then none
      else matchWordsCiRest (w2 :: ws) (r.dropWhile pyIsSpace))

/-- One action-type pattern: literal words separated by `\s+`
(IGNORECASE). -/
def matchWordsCi (ws : List String) (cs : List Char) : Option Unit :=
  (matchWordsCiRest ws cs).map (fun _ => ())

/-- The `action_patterns` list of `_parse_text_content`, paired with the
value stored on a match (`pattern.replace(r'\s+', ' ')`). -/
def actionPatterns : List (List String × String) :=
  [ (["Notice", "of", "Assessment", "of", "Penalties"], "Notice of Assessment of Penalties"),
    (["Curtailment"], "Curtailment"),
    (["Cease", "&", "Desist"], "Cease & Desist"),
    (["Directed", "Plan", "of", "Correction"], "Directed Plan of Correction"),
    (["Lifting", "Curtailment"], "Lifting Curtailment"),
    (["Revocation"], "Revocation"),
    (["Suspension"], "Suspension") ]

/-- The action-type loop: patterns tried in list order, first pattern
found anywhere in the text (IGNORECASE) wins. -/
def extract_action_type_field (text : String) : String :=
  match actionPatterns.find? (fun p => (searchM (matchWordsCi p.1) text.data).isSome) with
  | some p => p.2
  | none => ""

/-- `_extract_violation_section` / `_extract_contact_information`
section patterns: `Label:\s*(.+?)(?=\n\n|\n[A-Z]|$)` with I|M|DOTALL.
Under MULTILINE the `$` lookahead alternative matches just before any
newline, so the lazy capture is the rest of the line, exactly as in
`captureLineAfter`. -/
def sectionAfterLabel (label : List Char) (optS : Bool) (cs : List Char) : Option (List Char) :=
  (matchLitCi label cs).bind (fun r1 =>
    let r2 := if optS then matchOptCharCi 's' r1 else r1
    (matchLitCi (":".data) r2).bind captureLineAfter)

/-- `_extract_violation_section`: the four header synonyms tried in order
(`Violations?:`, `Deficiencies?:`, `Findings?:`, `Issues?:` — note the
optional letter is the trailing `s`), first matching pattern wins, its
capture stripped; `""` when none matches. -/
def extract_violation_section_field (text : String) : String :=
  match searchM (sectionAfterLabel ("violation".data) true) text.data with
  | some cap => pyStrip (String.mk cap)
  | none =>
    match searchM (sectionAfterLabel ("deficiencie".data) true) text.data with
    | some cap => pyStrip (String.mk cap)
    | none =>
      match searchM (sectionAfterLabel ("finding".data) true) text.data with
      | some cap => pyStrip (String.mk cap)
      | none =>
        match searchM (sectionAfterLabel ("issue".data) true) text.data with
        | some cap => pyStrip (String.mk cap)
        | none => ""

/-- `_extract_contact_information`: `Contact:`, `For\s+questions?:`,
`Inquiries:` tried in order; same section-capture shape. -/
def extract_contact_field (text : String) : String :=
  match searchM (sectionAfterLabel ("contact".data) false) text.data with
  | some cap => pyStrip (String.mk cap)
  | none =>
    match searchM
        (fun cs =>
          (matchLitCi ("for".data) cs).bind (fun r1 =>
            let wsRun := r1.takeWhile pyIsSpace
            if wsRun.isEmpty then none
            else sectionAfterLabel ("question".data) true (r1.dropWhile pyIsSpace)))
        text.data with
    | some cap => pyStrip (String.mk cap)
    | none =>
      match searchM (sectionAfterLabel ("inquiries".data) false) text.data with
      | some cap => pyStrip (String.mk cap)
      | none => ""

/-- `Effective\s+Date:\s*([0-9/]+)` (IGNORECASE). -/
def datePattern1 (cs : List Char) : Option (List Char) :=
  (matchLitCi ("effective".data) cs).bind (fun r1 =>
    let wsRun := r1.takeWhile pyIsSpace
    if wsRun.isEmpty then none
    else
      (matchLitCi ("date:".data) (r1.dropWhile pyIsSpace)).bind (fun r2 =>
        let cap := (skipWs r2).takeWhile (fun c => c.isDigit || c = '/')
        if cap.isEmpty then none else some cap))

/-- `Date:\s*([0-9/]+)` (IGNORECASE). -/
def datePattern2 (cs : List Char) : Option (List Char) :=
  (matchLitCi ("date:".data) cs).bind (fun r2 =>
    let cap := (skipWs r2).takeWhile (fun c => c.isDigit || c = '/')
    if cap.isEmpty then none else some cap)

/-- `([0-9]{1,2}/[0-9]{1,2}/[0-9]{4})`: one or two digits (greedy, with
backtracking from two to one), a slash, one or two digits, a slash, then
exactly four digits. -/
def datePattern3 (cs : List Char) : Option (List Char) :=
  let grab12 : List Char → Option (List Char × List Char) := fun l =>
    match l with
    | d1 :: d2 :: rest =>
      if d1.isDigit && d2.isDigit then some ([d1, d2], rest)
      else if d1.isDigit then some ([d1], d2 :: rest)
      else none
    | [d1] => if d1.isDigit then some ([d1], []) else none
    | [] => none
  let slash : List Char → Option (List Char) := fun l =>
    match l with
    | '/' :: rest => some rest
    | _ => none
  let grab4 : List Char → Option (List Char) := fun l =>
    match l with
    | d1 :: d2 :: d3 :: d4 :: _ =>
      if d1.isDigit && d2.isDigit && d3.isDigit && d4.isDigit then
        some [d1, d2, d3, d4]
      else none
    | _ => none
  (grab12 cs).bind (fun p1 =>
    match slash p1.2 with
    | some r1 =>
      (grab12 r1).bind (fun p2 =>
        match slash p2.2 with
        | some r2 =>
          (grab4 r2).map (fun y => p1.1 ++ '/' :: p2.1 ++ '/' :: y)
        | none => none)
    | none =>
      -- backtrack `[0-9]{1,2}` from two digits to one
      match p1.1 with
      | [d1, d2] =>
        if d2 = '/' then none  -- unreachable: digits only
        else
          (slash (d2 :: p1.2)).bind (fun r1 =>
            (grab12 r1).bind (fun p2 =>
              (slash p2.2).bind (fun r2 =>
                (grab4 r2).map (fun y => [d1] ++ '/' :: p2.1 ++ '/' :: y))))
      | _ => none)

/-- The `date_patterns` loop: three patterns in priority order, first
match anywhere wins, captured text stripped. -/
def extract_effective_date_field (text : String) : String :=
  match searchM datePattern1 text.data with
  | some cap => pyStrip (String.mk cap)
  | none =>
    match searchM datePattern2 text.data with
    | some cap => pyStrip (String.mk cap)
    | none =>
      match searchM datePattern3 text.data with
      | some cap => pyStrip (String.mk cap)
      | none => ""

/-! ### `_extract_key_violations` (src/pdf_parser.py 245-263)

Each of the three list-item patterns has the shape
`(?:^|\n)\s*MARKER\s*(.+?)(?=\n\s*MARKER|\n\n|$)` with MULTILINE and
DOTALL, scanned with `re.findall` (leftmost, non-overlapping, each scan
resuming at the previous match's end).  Under MULTILINE the `$` lookahead
alternative matches just before every newline, which subsumes the other
two lookahead alternatives, so the lazy capture always extends exactly to
the end of the current line (at least one character). -/

/-- `[0-9]+\.` — one or more digits then a literal dot. -/
def numberedMarker (cs : List Char) : Option (List Char) :=
  let ds := cs.takeWhile Char.isDigit
  if ds.isEmpty then none
  else
    match cs.drop ds.length with
    | '.' :: rest => some rest
    | _ => none

/-- `[•\-\*]` — a single bullet character. -/
def bulletMarker (cs : List Char) : Option (List Char) :=
  match cs with
  | c :: rest => if c = '•' ∨ c = '-' ∨ c = '*' then some rest else none
  | [] => none

/-- `[a-z]\)` — one lowercase letter then a closing parenthesis
(this pattern is compiled without IGNORECASE). -/
def letteredMarker (cs : List Char) : Option (List Char) :=
  match cs with
  | c :: ')' :: rest => if 'a' ≤ c ∧ c ≤ 'z' then some rest else none
  | _ => none

/-- The `\s*(.+?)` part after a marker: greedy whitespace (possibly
crossing newlines), then a lazy capture of at least one character up to
the end of the line.  When only whitespace remains, Python backtracks one
character out of `\s*` and captures that single whitespace character (the
`$` lookahead matches at the end of input); the caller's `strip()` and
20-character filter then discard it. -/
def itemCapture (cs : List Char) : Option (List Char × List Char) :=
  let n := cs.dropWhile pyIsSpace
  match n with
  | [] =>
    match cs.getLast? with
    | some c => some ([c], [])
    | none => none
  | _ :: _ => some (n.takeWhile (fun c => c ≠ '\n'), n.dropWhile (fun c => c ≠ '\n'))

/-- `\s*MARKER\s*(.+?)…` starting at the current position. -/
def tryItem (marker : List Char → Option (List Char)) (cs : List Char) :
    Option (List Char × List Char) :=
  (marker (skipWs cs)).bind itemCapture

/-- The `re.findall` scan for one item pattern.  The boolean tracks
whether the current position is at the start of the input or just after a
newline (where MULTILINE `^` matches); at each position the `^` branch of
`(?:^|\n)` is tried first, then the newline-consuming branch; on success
the scan resumes at the match end.  Fuel bounds the recursion (each step
consumes at least one character or ends the scan). -/
def scanItemsF (marker : List Char → Option (List Char)) :
    Nat → Bool → List Char → List String
  | 0, _, _ => []
  | _ + 1, _, [] => []
  | fuel + 1, atStart, c :: cs =>
    match (if atStart then tryItem marker (c :: cs) else none) with
    | some (cap, rest) => String.mk cap :: scanItemsF marker fuel false rest
    | none =>
      if c = '\n' then
        match tryItem marker cs with
        | some (cap, rest) => String.mk cap :: scanItemsF marker fuel false rest
        | none => scanItemsF marker fuel true cs
      else scanItemsF marker fuel false cs

/-- `_extract_key_violations`: run the three patterns in order, strip each
match, keep only matches longer than 20 characters, concatenate the three
result lists, and truncate to the first 10 items. -/
def extract_key_violations_list (text : String) : List String :=
  let collect := fun (marker : List Char → Option (List Char)) =>
    ((scanItemsF marker (text.data.length + 1) true text.data).map pyStrip).filter
      (fun v => 20 < v.length)
  (collect numberedMarker ++ collect bulletMarker ++ collect letteredMarker).take 10

/-! ### `_extract_administrator_info` (src/pdf_parser.py 280-355)

All the name patterns capture `[A-Z][a-z]+\s+[A-Z][a-z]+` (or the
`[A-Z][a-zA-Z]+` variant, identical under IGNORECASE): two runs of at
least two ASCII letters separated by whitespace.  The letter runs are
matched greedily without backtracking into them; Python would additionally
match names butted directly against the following keyword (e.g.
`"John SmithAdministrator"`) by shrinking the second run, an edge no claim
exercises. -/

/-- `([A-Z][a-z]+\s+[A-Z][a-z]+)` under IGNORECASE: the captured text and
the rest of the input. -/
def matchNamePair (cs : List Char) : Option (List Char × List Char) :=
  let w1 := cs.takeWhile Char.isAlpha
  let r1 := cs.dropWhile Char.isAlpha
  if w1.length < 2 then none
  else
    let wsRun := r1.takeWhile pyIsSpace
    let r2 := r1.dropWhile pyIsSpace
    if wsRun.isEmpty then none
    else
      let w2 := r2.takeWhile Char.isAlpha
      let r3 := r2.dropWhile Char.isAlpha
      if w2.length < 2 then none else some (w1 ++ wsRun ++ w2, r3)

/-- `([A-Z][a-z]+\s+[A-Z][a-z]+),?\s*Administrator` (patterns 1, 12 and
the `[a-zA-Z]` variant 14 of `admin_patterns`, which coincide under
IGNORECASE). -/
def adminNameAdministrator (cs : List Char) : Option String :=
  (matchNamePair cs).bind (fun p =>
    (matchLitCi ("administrator".data) (skipWs (matchOptChar ',' p.2))).map
      (fun _ => String.mk p.1))

/-- `Keyword…[:\s]*([A-Z][a-z]+\s+[A-Z][a-z]+)` — the label-prefixed
patterns (`Administrator`, `Nursing Home Administrator`,
`Facility Administrator`, `Contact Person`, `Director`, `CEO`,
`Chief Executive Officer`), with `\s+` between the label's words. -/
def labelThenName (words : List String) (cs : List Char) : Option String :=
  (matchWordsCiRest words cs).bind (fun r =>
    (matchNamePair (skipColonWs r)).map (fun p => String.mk p.1))

/-- `Administrator\s*[-:]\s*([A-Z][a-z]+\s+[A-Z][a-z]+)`. -/
def adminDashColonName (cs : List Char) : Option String :=
  (matchLitCi ("administrator".data) cs).bind (fun r1 =>
    match skipWs r1 with
    | c :: rest =>
      if c = '-' ∨ c = ':' then
        (matchNamePair (skipWs rest)).map (fun p => String.mk p.1)
      else none
    | [] => none)

/-- `\s*\n` followed by the rest of that line: the whitespace run at the
head must contain a newline (`\s*` greedily backtracks so that the last
newline of the run is the one consumed by `\n`), and the result is the
text from just after that newline to the end of its line, which is all a
DOTALL-free `.*` can reach. -/
def wsRunThenLine (r : List Char) : Option (List Char) :=
  let run := r.takeWhile pyIsSpace
  let rest := r.dropWhile pyIsSpace
  if run.contains '\n' then
    some ((run.reverse.takeWhile (fun c => c ≠ '\n')).reverse ++
      rest.takeWhile (fun c => c ≠ '\n'))
  else none

/-- `^([A-Z][a-z]+\s+[A-Z][a-z]+)\s*\n.*Administrator` (body; the `^`
anchor is handled by the anchored search). -/
def adminNameNextLineAdmin (cs : List Char) : Option String :=
  (matchNamePair cs).bind (fun p =>
    (wsRunThenLine p.2).bind (fun line =>
      if (searchM (matchLitCi ("administrator".data)) line).isSome then
        some (String.mk p.1)
      else none))

/-- `([A-Z][a-z]+\s+[A-Z][a-z]+),?\s*Administrator\s*\n.*Health\s+Center`. -/
def adminNameAdminHealthCenter (cs : List Char) : Option String :=
  (matchNamePair cs).bind (fun p =>
    (matchLitCi ("administrator".data) (skipWs (matchOptChar ',' p.2))).bind
      (fun r =>
        (wsRunThenLine r).bind (fun line =>
          if (searchM (matchWordsCi ["Health", "Center"]) line).isSome then
            some (String.mk p.1)
          else none)))

/-- `Sincerely,\s*([A-Z][a-z]+\s+[A-Z][a-z]+)`. -/
def sigSincerely (cs : List Char) : Option String :=
  (matchLitCi ("sincerely,".data) cs).bind (fun r =>
    (matchNamePair (skipWs r)).map (fun p => String.mk p.1))

/-- `Best\s+regards,\s*([A-Z][a-z]+\s+[A-Z][a-z]+)`. -/
def sigBestRegards (cs : List Char) : Option String :=
  (matchWordsCiRest ["Best", "regards,"] cs).bind (fun r =>
    (matchNamePair (skipWs r)).map (fun p => String.mk p.1))

/-- `([A-Z][a-z]+\s+[A-Z][a-z]+),?\s*(Administrator|Director|CEO)` —
group 1 is the name. -/
def nameTitleSig (cs : List Char) : Option String :=
  (matchNamePair cs).bind (fun p =>
    let r := skipWs (matchOptChar ',' p.2)
    if (matchLitCi ("administrator".data) r).isSome ∨
        (matchLitCi ("director".data) r).isSome ∨
        (matchLitCi ("ceo".data) r).isSome then
      some (String.mk p.1)
    else none)

/-- MULTILINE `^`-anchored `re.search`: try the matcher at the start of
the input and after every newline, leftmost first. -/
def searchAfterNewlines {α : Type} (m : List Char → Option α) : List Char → Option α
  | [] => none
  | c :: cs =>
    if c = '\n' then
      match m cs with
      | some r => some r
      | none => searchAfterNewlines m cs
    else searchAfterNewlines m cs

/-- MULTILINE `^`-anchored `re.search`. -/
def searchAnchored {α : Type} (m : List Char → Option α) (cs : List Char) : Option α :=
  match m cs with
  | some r => some r
  | none => searchAfterNewlines m cs

/-- The `admin_patterns` loop followed (on total failure) by the
`signature_patterns` loop: each pattern is `re.search`ed over the whole
text, first pattern with a match wins, and the captured group is
stripped. -/
def adminSearch (text : String) : Option String :=
  let cs := text.data
  let found :=
    (searchM adminNameAdministrator cs).orElse (fun _ =>
    (searchM (labelThenName ["Administrator"]) cs).orElse (fun _ =>
    (searchM (labelThenName ["Nursing", "Home", "Administrator"]) cs).orElse (fun _ =>
    (searchM (labelThenName ["Facility", "Administrator"]) cs).orElse (fun _ =>
    (searchM adminDashColonName cs).orElse (fun _ =>
    (searchM (labelThenName ["Contact", "Person"]) cs).orElse (fun _ =>
    (searchM (labelThenName ["Director"]) cs).orElse (fun _ =>
    (searchM (labelThenName ["CEO"]) cs).orElse (fun _ =>
    (searchM (labelThenName ["Chief", "Executive", "Officer"]) cs).orElse (fun _ =>
    (searchAnchored adminNameAdministrator cs).orElse (fun _ =>
    (searchAnchored adminNameNextLineAdmin cs).orElse (fun _ =>
    (searchM adminNameAdministrator cs).orElse (fun _ =>
    (searchM adminNameAdminHealthCenter cs).orElse (fun _ =>
    searchM adminNameAdministrator cs)))))))))))))
  match found with
  | some full => some (pyStrip full)
  | none =>
    ((searchM sigSincerely cs).orElse (fun _ =>
     (searchM sigBestRegards cs).orElse (fun _ =>
      searchM nameTitleSig cs))).map pyStrip

/-- `full_name.split()[0]`: the first whitespace-separated word. -/
def pyFirstWord (s : String) : String :=
  String.mk ((s.data.dropWhile pyIsSpace).takeWhile (fun c => !(pyIsSpace c)))

/-- The fixed fallback pool of `_extract_administrator_info`. -/
def default_names : List String :=
  ["Michael", "Sarah", "David", "Jennifer", "Robert", "Lisa", "James", "Mary",
   "John", "Patricia"]

/-- `_extract_administrator_info`, returning
`(full_name, first_name)`.  `random.choice(default_names)` is modelled by
an injected index `rand` (reduced mod the pool size), per the spec's
injectable-source requirement; the fallback fires exactly when no pattern
produced a first name, and then synthesizes
`"{first_name} [Administrator]"`. -/
def extract_administrator_info (text : String) (rand : Nat) : String × String :=
  let full0 := (adminSearch text).getD ""
  let first0 := pyFirstWord full0
  if first0 = "" then
    let first := default_names.getD (rand % default_names.length) "Michael"
    (first ++ " [Administrator]", first)
  else (full0, first0)

/-! ### `_parse_text_content` (src/pdf_parser.py 129-226) -/

/-- The `parsed_data` dictionary of `_parse_text_content`.  The initial
dictionary carries no administrator keys; a missing key is modelled as the
empty default. -/
structure PdfData where
  raw_text : String := ""
  facility_name : String := ""
  facility_address : String := ""
  facility_license_number : String := ""
  enforcement_action_type : String := ""
  penalty_amount : String := ""
  violation_details : String := ""
  corrective_actions : String := ""
  effective_date : String := ""
  contact_information : String := ""
  key_violations : List String := []
  administrator_name : String := ""
  administrator_first_name : String := ""
deriving DecidableEq, Repr

/-- The dictionary as initialized at the top of `_parse_text_content`,
before the `try` block runs. -/
def initFields (text : String) : PdfData := { raw_text := text }

/-- An empty parse result (the `{}` that `parse_pdf` returns on failure;
`DataProcessor` reads every key through `.get` with these defaults). -/
def emptyPdfData : PdfData := {}

/-- `_parse_text_content` with fault injection: the extractors run in
source order inside the `try` block, and `failAt = some k` means the
`k`-th extraction step raises, at which point the `except` handler logs
and the function returns the `parsed_data` accumulated so far (fields
assigned before the exception keep their values).  `failAt = none` is the
normal run. -/
def parse_text_content_fault (text : String) (rand : Nat) (failAt : Option Nat) : PdfData :=
  let d0 := initFields text
  if failAt = some 0 then d0 else
  let d1 := { d0 with facility_name := extract_facility_name_field text }
  if failAt = some 1 then d1 else
  let d2 := { d1 with facility_address := extract_address_field text }
  if failAt = some 2 then d2 else
  let d3 := { d2 with facility_license_number := extract_license_field text }
  if failAt = some 3 then d3 else
  let d4 := { d3 with penalty_amount := extract_penalty_field text }
  if failAt = some 4 then d4 else
  let d5 := { d4 with enforcement_action_type := extract_action_type_field text }
  if failAt = some 5 then d5 else
  let d6 := { d5 with violation_details := extract_violation_section_field text }
  if failAt = some 6 then d6 else
  let d7 := { d6 with key_violations := extract_key_violations_list text }
  if failAt = some 7 then d7 else
  let d8 := { d7 with effective_date := extract_effective_date_field text }
  if failAt = some 8 then d8 else
  let d9 := { d8 with contact_information := extract_contact_field text }
  if failAt = some 9 then d9 else
  let admin := extract_administrator_info text rand
  { d9 with administrator_name := admin.1, administrator_first_name := admin.2 }

/-- `_parse_text_content` (no extractor raises). -/
def parse_text_content (text : String) (rand : Nat) : PdfData :=
  parse_text_content_fault text rand none

/-! ### `parse_pdf` (src/pdf_parser.py 26-56) -/

/-- A PDF input, characterized by the observable behaviour of the external
libraries on it: the page texts each direct-extraction method produced
before finishing or raising, whether it raised, the result of
`_extract_text_with_ocr` (which catches all its own exceptions and
returns a plain string, empty on failure), and the injected index for the
administrator-name fallback. -/
structure PdfBytes where
  pages1 : List String := []
  threw1 : Bool := false
  pages2 : List String := []
  threw2 : Bool := false
  ocrText : String := ""
  rand : Nat := 0

/-- `_extract_text_from_pdf` on a `PdfBytes`. -/
def extract_text_from_pdf (b : PdfBytes) : Except String String :=
  extract_text_core b.pages1 b.threw1 b.pages2 b.threw2

/-- `parse_pdf`: direct extraction first; if the result is falsy or its
stripped length is under 50, fall back to OCR; return `{}` (`none`) when
no text at all was obtained, else the parsed fields.  The boolean is the
spy of the spec's section 8: whether the OCR fallback was invoked.  The
outer `except` would map an escaped exception to `{}`; every inner layer
already catches its own exceptions, so the `error` branch is
unreachable. -/
def parse_pdf (b : PdfBytes) : Bool × Option PdfData :=
  match extract_text_from_pdf b with
  | Except.error _ => (false, none)
  | Except.ok t =>
    let ocrInvoked := t = "" || (pyStrip t).length < 50
    let text := if ocrInvoked then b.ocrText else t
    if text = "" then (ocrInvoked, none)
    else (ocrInvoked, some (parse_text_content text b.rand))

/-! ## Data Reconciliation & Scoring (`DataProcessor`, src/data_processor.py)

`datetime` values are modelled as integer day counts (`datetime.now()`
becomes an injected `now : Int`); `(now - entry_date).days` is then plain
subtraction, and `strftime` renders the day count through the standard
civil-from-days conversion.  Time of day is abstracted away: it only ever
feeds `scraped_at` (kept as the raw `now`) and sub-day rounding of
`days_old`, which no claim distinguishes. -/

/-- An entry scraped from the web page (section 6 of the spec).  `date` is
`none` when the scraper supplied no date (`web_entry.get('date')` is
`None`). -/
structure WebEntry where
  date : Option Int := none
  facility_name : String := ""
  enforcement_action : String := ""
  pdf_url : String := ""
deriving DecidableEq, Repr

/-- Civil calendar date `(year, month, day)` of a day count (days since
1970-01-01, Howard Hinnant's `civil_from_days` algorithm, which is what
`datetime.date` arithmetic realizes). -/
def civilFromDays (z0 : Int) : Int × Int × Int :=
  let z := z0 + 719468
  let era := Int.fdiv z 146097
  let doe := z - era * 146097
  let yoe := Int.fdiv (doe - Int.fdiv doe 1460 + Int.fdiv doe 36524 - Int.fdiv doe 146096) 365
  let y := yoe + era * 400
  let doy := doe - (365 * yoe + Int.fdiv yoe 4 - Int.fdiv yoe 100)
  let mp := Int.fdiv (5 * doy + 2) 153
  let d := doy - Int.fdiv (153 * mp + 2) 5 + 1
  let m := mp + (if mp < 10 then 3 else -9)
  (y + (if m ≤ 2 then 1 else 0), m, d)

/-- Zero-padded decimal rendering of a (non-negative) number. -/
def padNum (width : Nat) (n : Int) : String :=
  let s := toString n.toNat
  String.mk (List.replicate (width - s.length) '0') ++ s

/-- `date.strftime('%Y%m%d')`. -/
def strftimeYmd (d : Int) : String :=
  match civilFromDays d with
  | (y, m, dd) => padNum 4 y ++ padNum 2 m ++ padNum 2 dd

/-- `date.strftime('%Y-%m-%d')`. -/
def strftimeIso (d : Int) : String :=
  match civilFromDays d with
  | (y, m, dd) => padNum 4 y ++ "-" ++ padNum 2 m ++ "-" ++ padNum 2 dd

/-- `str.replace` for a single-character pattern and replacement (all the
replacements `_generate_entry_id` performs are single characters). -/
def pyReplaceChar (a b : Char) (s : String) : String :=
  String.mk (s.data.map (fun c => if c = a then b else c))

/-- `_generate_entry_id`: `"{facility_name}_{date:%Y%m%d}"`, spaces and
slashes replaced by underscores, lower-cased.  `web_entry.get('date',
datetime.now())` substitutes the current time when the entry has no
date. -/
def generate_entry_id (web : WebEntry) (now : Int) : String :=
  let date := web.date.getD now
  let idString := web.facility_name ++ "_" ++ strftimeYmd date
  pyLower (pyReplaceChar '/' '_' (pyReplaceChar ' ' '_' idString))

/-- `_extract_facility_name`: prefer the PDF name when it is non-empty and
strictly longer, else the web name, else the PDF name. -/
def extract_facility_name (web : WebEntry) (pdf : PdfData) : String :=
  let webName := web.facility_name
  let pdfName := pdf.facility_name
  if pdfName ≠ "" ∧ webName.length < pdfName.length then pdfName
  else if webName ≠ "" then webName
  else pdfName

/-- `_extract_enforcement_type`: prefer the PDF action type when
non-empty. -/
def extract_enforcement_type (web : WebEntry) (pdf : PdfData) : String :=
  if pdf.enforcement_action_type ≠ "" then pdf.enforcement_action_type
  else web.enforcement_action

/-- `re.sub(r'[^\d,]', '', penalty)` — keep only digits and commas. -/
def cleanPenalty (s : String) : String :=
  String.mk (s.data.filter isDigitComma)

/-- `_extract_penalty_amount`: on a non-empty raw value, keep digits and
commas and prepend `"$"` when anything remains; otherwise return the
(empty) value unchanged. -/
def extract_penalty_amount (pdf : PdfData) : String :=
  let penalty := pdf.penalty_amount
  if penalty ≠ "" then
    let cleaned := cleanPenalty penalty
    if cleaned ≠ "" then "$" ++ cleaned else cleaned
  else penalty

/-- `_extract_violation_summary`: first three key violations joined by
`"; "`, else the violation details truncated to 500 characters with an
ellipsis, else `""`. -/
def extract_violation_summary (pdf : PdfData) : String :=
  if pdf.key_violations ≠ [] then
    String.intercalate "; " (pdf.key_violations.take 3)
  else if pdf.violation_details ≠ "" then
    if 500 < pdf.violation_details.length then
      String.mk (pdf.violation_details.data.take 500) ++ "..."
    else pdf.violation_details
  else ""

/-- `float(re.sub(r'[^\d.]', '', penalty_amount))` with `ValueError`
mapped to `none` — the numeric penalty used by severity and priority. -/
def penaltyFloat (penalty_amount : String) : Option Rat :=
  pyFloatOfDigitsDots (String.mk (penalty_amount.data.filter (fun c => c.isDigit || c = '.')))

/-- The numeric penalty as `_assess_severity` / `_calculate_priority_score`
compute it: only attempted on a truthy `penalty_amount`. -/
def penaltyValue (penalty_amount : String) : Option Rat :=
  if penalty_amount ≠ "" then penaltyFloat penalty_amount else none

/-- The trailing medium-severity check of `_assess_severity`. -/
def mediumIndicator (action_type : String) : String :=
  if strContains action_type "curtailment" || strContains action_type "penalties" then
    "MEDIUM"
  else "LOW"

/-- `_assess_severity` (src/data_processor.py 143-167). -/
def assess_severity (web : WebEntry) (pdf : PdfData) : String :=
  let action_type := pyLower (extract_enforcement_type web pdf)
  if strContains action_type "revocation" || strContains action_type "suspension" ||
      strContains action_type "cease" then "HIGH"
  else
    match penaltyValue (extract_penalty_amount pdf) with
    | some amount =>
      if 10000 ≤ amount then "HIGH"
      else if 1000 ≤ amount then "MEDIUM"
      else mediumIndicator action_type
    | none => mediumIndicator action_type

/-- The recency bonus of `_calculate_priority_score`:
`days_old <= 1 → 10`, `days_old <= 7 → 5`, else nothing. -/
def recencyBonus (now entryDate : Int) : Int :=
  if now - entryDate ≤ 1 then 10
  else if now - entryDate ≤ 7 then 5
  else 0

/-- `_calculate_priority_score` (src/data_processor.py 169-216). -/
def calculate_priority_score (web : WebEntry) (pdf : PdfData) (now : Int) : Int :=
  let action_type := pyLower (extract_enforcement_type web pdf)
  let base : Int :=
    if strContains action_type "revocation" || strContains action_type "suspension" then 40
    else if strContains action_type "cease" then 30
    else if strContains action_type "curtailment" then 20
    else if strContains action_type "penalties" then 15
    else 0
  let penaltyBonus : Int :=
    match penaltyValue (extract_penalty_amount pdf) with
    | some amount =>
      if 50000 ≤ amount then 30
      else if 10000 ≤ amount then 20
      else if 1000 ≤ amount then 10
      else 0
    | none => 0
  let violationBonus : Int :=
    if 5 ≤ pdf.key_violations.length then 15
    else if 3 ≤ pdf.key_violations.length then 10
    else if 1 ≤ pdf.key_violations.length then 5
    else 0
  let dateBonus : Int :=
    match web.date with
    | some d => recencyBonus now d
    | none => 0
  min (base + penaltyBonus + violationBonus + dateBonus) 100

/-- `_format_date`: a date object renders as ISO `YYYY-MM-DD`; a missing
date gives `""`.  (The string-reparsing branch is not modelled: the web
scraper hands over date objects.) -/
def format_date : Option Int → String
  | some d => strftimeIso d
  | none => ""

/-- The `structured_data` record built by `_extract_structured_data`. -/
structure StructuredData where
  facility_name : String := ""
  facility_address : String := ""
  facility_license_number : String := ""
  enforcement_date : String := ""
  enforcement_action_type : String := ""
  penalty_amount : String := ""
  violation_summary : String := ""
  key_violations : List String := []
  effective_date : String := ""
  contact_information : String := ""
  pdf_url : String := ""
  severity_level : String := ""
  priority_score : Int := 0
deriving DecidableEq, Repr

/-- `_extract_structured_data` (src/data_processor.py 79-97). -/
def extract_structured_data (web : WebEntry) (pdf : PdfData) (now : Int) : StructuredData :=
  { facility_name := extract_facility_name web pdf
    facility_address := pdf.facility_address
    facility_license_number := pdf.facility_license_number
    enforcement_date := format_date web.date
    enforcement_action_type := extract_enforcement_type web pdf
    penalty_amount := extract_penalty_amount pdf
    violation_summary := extract_violation_summary pdf
    key_violations := pdf.key_violations
    effective_date := pdf.effective_date
    contact_information := pdf.contact_information
    pdf_url := web.pdf_url
    severity_level := assess_severity web pdf
    priority_score := calculate_priority_score web pdf now }

/-- `re.match(r'^\$?[\d,]+$', s)` as a boolean: an optional leading `$`,
then at least one digit or comma, to the end of the string (Python's `$`
also accepts one trailing newline before the end). -/
def penaltyFormatOk (s : String) : Bool :=
  let cs := s.data
  let cs := if cs.head? = some '$' then cs.tail else cs
  let cs := if cs.getLast? = some '\n' then cs.dropLast else cs
  !cs.isEmpty && cs.all isDigitComma

/-- `_calculate_completeness_score` (src/data_processor.py 265-279).
`round(x, 1)` is modelled as exact rational rounding to one decimal. -/
def calculate_completeness_score (s : StructuredData) : Rat :=
  let requiredCount : Nat :=
    (if s.facility_name ≠ "" then 1 else 0) +
    (if s.enforcement_action_type ≠ "" then 1 else 0) +
    (if s.enforcement_date ≠ "" then 1 else 0)
  let optionalCount : Nat :=
    (if s.facility_address ≠ "" then 1 else 0) +
    (if s.facility_license_number ≠ "" then 1 else 0) +
    (if s.penalty_amount ≠ "" then 1 else 0) +
    (if s.violation_summary ≠ "" then 1 else 0) +
    (if s.key_violations ≠ [] then 1 else 0) +
    (if s.effective_date ≠ "" then 1 else 0)
  let requiredScore : Rat := (requiredCount : Rat) / 3 * 60
  let optionalScore : Rat := (optionalCount : Rat) / 6 * 40
  ((round ((requiredScore + optionalScore) * 10) : Int) : Rat) / 10

/-- The validation sub-record. -/
structure Validation where
  valid : Bool := true
  errors : List String := []
  warnings : List String := []
  completeness_score : Rat := 0
deriving DecidableEq, Repr

/-- `_validate_data` (src/data_processor.py 234-263): the only error is a
missing facility name; everything else is a warning. -/
def validate_data (structured : StructuredData) : Validation :=
  let errors := if structured.facility_name = "" then ["Missing facility name"] else []
  let warnings :=
    (if structured.enforcement_action_type = "" then ["Missing enforcement action type"] else []) ++
    (if structured.enforcement_date = "" then ["Missing enforcement date"] else []) ++
    (if structured.penalty_amount ≠ "" ∧ ¬ penaltyFormatOk structured.penalty_amount then
      ["Penalty amount format may be incorrect"] else []) ++
    (if structured.facility_license_number ≠ "" ∧ structured.facility_license_number.length < 3 then
      ["License number seems too short"] else [])
  { valid := errors.isEmpty
    errors := errors
    warnings := warnings
    completeness_score := calculate_completeness_score structured }

/-- The record `process_entry` returns. -/
structure ProcessedEntry where
  id : String
  scraped_at : Int
  web_data : WebEntry
  pdf_data : PdfData
  structured_data : StructuredData
  validation : Validation
deriving DecidableEq, Repr

/-- `process_entry` (src/data_processor.py 27-68).  The body's own
`except` branch (empty structured data, `valid = false` with the exception
message) is unreachable in the embedding because every helper is total. -/
def process_entry (web : WebEntry) (pdf : PdfData) (now : Int) : ProcessedEntry :=
  let structured := extract_structured_data web pdf now
  { id := generate_entry_id web now
    scraped_at := now
    web_data := web
    pdf_data := pdf
    structured_data := structured
    validation := validate_data structured }

/-! ## Spec-side definitions and concrete claim inputs -/

/-- The direct-extraction text of the C2 counterexample: two
non-whitespace characters separated by sixty spaces. -/
def c2Direct : String := "a" ++ String.mk (List.replicate 60 ' ') ++ "b" ++ "\n"

/-- A PDF whose first extraction method yields `c2Direct`. -/
def c2Bytes : PdfBytes := { pages1 := ["a" ++ String.mk (List.replicate 60 ' ') ++ "b"] }

/-- The claim's input text: contains `penalty of $1,234` and no other
penalty phrasing. -/
def c4Text : String := "A penalty of $1,234 was imposed on the facility."

/-- A web entry for the C4 reconciliation step. -/
def c4Web : WebEntry := { facility_name := "Facility X" }

/-- The C5 input: a text on which the first extractor finds a facility
name, with the injected fault hitting the second extraction step. -/
def c5Text : String := "Facility: Grand Care Center"

/-- Modelled from the spec: the severity cascade of section 4.4, applied
in priority order with first match winning — HIGH on
revocation/suspension/cease in the action type, else HIGH on penalty at
least $10,000, else MEDIUM on penalty at least $1,000, else MEDIUM on
curtailment/penalties in the action type, else LOW; a non-numeric penalty
string is treated as absent. -/
def severity_spec (web : WebEntry) (pdf : PdfData) : String :=
  let action_type := pyLower (extract_enforcement_type web pdf)
  let amount := penaltyValue (extract_penalty_amount pdf)
  if strContains action_type "revocation" || strContains action_type "suspension" ||
      strContains action_type "cease" then "HIGH"
  else if (match amount with | some a => decide (10000 ≤ a) | none => false) then "HIGH"
  else if (match amount with | some a => decide (1000 ≤ a) | none => false) then "MEDIUM"
  else if strContains action_type "curtailment" || strContains action_type "penalties" then
    "MEDIUM"
  else "LOW"

/-- The web entry of the claim's concrete instance: action type
`Suspension`, with an arbitrary entry date. -/
def c6Web (dt : Option Int) : WebEntry :=
  { date := dt, facility_name := "Sunrise Care", enforcement_action := "Suspension" }

/-- The PDF fields of the claim's concrete instance: penalty `$0`. -/
def c6Pdf : PdfData := { penalty_amount := "0" }

/-- A bulleted violation item, first in the document (34 characters). -/
def c8BulletItem : String := "insufficient nursing staff on duty"

/-- A numbered violation item, second in the document (32 characters). -/
def c8NumberItem : String := "failure to maintain care records"

/-- A document with a bulleted item before a numbered item. -/
def c8OrderText : String := "- " ++ c8BulletItem ++ "\n\n1. " ++ c8NumberItem

/-- Six numbered violation items, each longer than 20 characters. -/
def c8Six : List String :=
  ["overcrowded resident rooms found", "expired medication in storage",
   "unsanitary kitchen conditions", "missing fire safety inspections",
   "untrained staff administering care", "incomplete resident care plans"]

/-- The six items as a numbered list document. -/
def c8SixText : String :=
  "1. overcrowded resident rooms found\n2. expired medication in storage\n" ++
  "3. unsanitary kitchen conditions\n4. missing fire safety inspections\n" ++
  "5. untrained staff administering care\n6. incomplete resident care plans"

/-- Twelve numbered violation items, each longer than 20 characters. -/
def c8Twelve : List String :=
  c8Six ++
  ["failure to report incidents promptly", "inadequate infection control measures",
   "improper storage of medical waste", "lack of required nursing coverage",
   "failure to notify family of incidents", "delayed response to resident calls"]

/-- The twelve items as a numbered list document. -/
def c8TwelveText : String :=
  c8SixText ++
  "\n7. failure to report incidents promptly\n8. inadequate infection control measures\n" ++
  "9. improper storage of medical waste\n10. lack of required nursing coverage\n" ++
  "11. failure to notify family of incidents\n12. delayed response to resident calls"

/-- A dated web entry whose action type earns a base score of 20. -/
def c9Web : WebEntry :=
  { date := some 0, facility_name := "Acme Care Home", enforcement_action := "Curtailment" }

/-! ## Sanity checks: the embedding evaluated on hand-traced inputs -/

/-! Quick consistency checks of the primitives. -/

example : pyStrip " a b \n" = "a b" := by decide
example : countNonWs " a b \n" = 2 := by decide
example : strContains "abc suspension x" "suspension" = true := by decide
example : pyFloatOfDigitsDots "1234" = some 1234 := by decide
example : pyFloatOfDigitsDots "" = none := by decide
example : extract_text_core [] true [] true = Except.ok "" := rfl
example : extract_text_core ["hello"] false [] true = Except.ok "hello\n" := rfl

/-! Sanity checks against hand-traced Python behaviour. -/

example : extract_facility_name_field "Facility: Grand Care Center" = "Grand Care Center" := by
  decide
example : extract_facility_name_field "" = "" := by decide
example : extract_penalty_field "a penalty of $1,234 was assessed" = "1,234" := by decide
example : extract_action_type_field "Notice of a Suspension order" = "Suspension" := by decide
example : extract_key_violations_list "1. first violation item aaaa\n2. second violation item bbb" =
    ["first violation item aaaa", "second violation item bbb"] := by decide
example : (extract_administrator_info "" 3).2 = "Jennifer" := by decide
example : (parse_text_content "" 0).administrator_name = "Michael [Administrator]" := by decide

/-! Sanity checks for the processor layer. -/

example : extract_penalty_amount { penalty_amount := "1,234" } = "$1,234" := by decide
example : assess_severity { enforcement_action := "Suspension" } { penalty_amount := "0" } =
    "HIGH" := by decide
example : strftimeIso 0 = "1970-01-01" := by decide
example : strftimeYmd 20000 = "20241004" := by decide
example : generate_entry_id { date := some 0, facility_name := "A B/C" } 5 = "a_b_c_19700101" := by
  decide

/-! ## Supporting lemmas -/

/-- Appending only empty pages leaves the accumulator unchanged. -/
theorem accumulatePages_of_all_empty (pages : List String) (acc : String)
    (h : ∀ p ∈ pages, p = "") : accumulatePages acc pages = acc := by
  induction pages generalizing acc with
  | nil => rfl
  | cons p rest ih =>
    have hp : p = "" := h p (List.mem_cons_self p rest)
    have hrest : ∀ q ∈ rest, q = "" := fun q hq => h q (List.mem_cons_of_mem p hq)
    simp only [accumulatePages, List.foldl_cons, hp] at *
    simpa [accumulatePages] using ih acc hrest

/-- The PyPDF2 fallback block always returns normally, with whatever has
accumulated in `text_content` (its own success check returns the same
value as the final `return text_content`). -/
theorem extractMethod2_eq (t1 : String) (pages2 : List String) (threw2 : Bool) :
    extractMethod2 t1 pages2 threw2 = Except.ok (accumulatePages t1 pages2) := by
  cases threw2 <;> simp [extractMethod2]

/-- Counting with `q` ignores a dropped prefix whose elements all violate
`q`. -/
theorem countP_dropWhile_eq {α : Type} (p q : α → Bool) (l : List α)
    (h : ∀ c, p c → q c = false) :
    List.countP q (l.dropWhile p) = List.countP q l := by
  induction l with
  | nil => rfl
  | cons c ls ih =>
    by_cases hc : p c
    · simp [List.dropWhile_cons, hc, ih, List.countP_cons, h c hc]
    · simp [List.dropWhile_cons, hc]

/-- `strip` does not change the number of non-whitespace characters. -/
theorem countP_stripChars (l : List Char) :
    List.countP (fun c => !(pyIsSpace c)) (stripChars l) =
      List.countP (fun c => !(pyIsSpace c)) l := by
  have hv : ∀ c, pyIsSpace c → (!(pyIsSpace c)) = false := by
    intro c hc; simp [hc]
  simp only [stripChars]
  rw [List.countP_reverse, countP_dropWhile_eq _ _ _ hv, List.countP_reverse,
    countP_dropWhile_eq _ _ _ hv]

/-- A string has at least as many characters after `strip()` as it has
non-whitespace characters. -/
theorem countNonWs_le_strip_length (s : String) :
    countNonWs s ≤ (pyStrip s).length := by
  have h1 : countNonWs s = List.countP (fun c => !(pyIsSpace c)) (stripChars s.data) := by
    simp [countNonWs, countP_stripChars]
  calc countNonWs s = List.countP (fun c => !(pyIsSpace c)) (stripChars s.data) := h1
    _ ≤ (stripChars s.data).length := List.countP_le_length _
    _ = (pyStrip s).length := rfl

/-! ## Claim C1 -/

/-- Counterexample to claim C1 as stated: when both extraction methods
throw, the return value is *not* always the empty string.  Here
pdfplumber extracts the page text `"Hello"` and then raises, and PyPDF2
raises immediately: `text_content` is a function-level accumulator shared
by both methods, so the page text appended before the exception survives,
and the final `return text_content` hands back `"Hello\n"`. -/
theorem C1_counterexample :
    extract_text_core ["Hello"] true [] true = Except.ok "Hello\n" ∧
    ("Hello\n" : String) ≠ "" := by
  exact ⟨rfl, by decide⟩

/-- Claim C1 amended: the direct text-extraction operation
(`_extract_text_from_pdf`) never raises — for every behaviour of the two
extraction methods (any pages extracted before finishing or raising, any
raising pattern) the result is a normal return, failures of either method
being swallowed, never propagated.  But when both methods fail or throw,
the returned string is the page text accumulated *before* the failures,
not necessarily `""`: the full characterization is that the function
returns method 1's text when method 1 neither threw nor produced
whitespace-only output, and otherwise the accumulator extended by
method 2's pages.  The return is therefore the empty string exactly when
neither method appended any non-empty page text before failing — in
particular when both methods throw before extracting anything. -/
theorem C1_partial_text_on_failure (pages1 : List String) (threw1 : Bool)
    (pages2 : List String) (threw2 : Bool) :
    (∃ s, extract_text_core pages1 threw1 pages2 threw2 = Except.ok s) ∧
    extract_text_core pages1 threw1 pages2 threw2 =
      Except.ok (if threw1 = false ∧ pyStrip (accumulatePages "" pages1) ≠ ""
        then accumulatePages "" pages1
        else accumulatePages (accumulatePages "" pages1) pages2) ∧
    ((∀ p ∈ pages1, p = "") → (∀ p ∈ pages2, p = "") →
      extract_text_core pages1 threw1 pages2 threw2 = Except.ok "") := by
  have hchar : extract_text_core pages1 threw1 pages2 threw2 =
      Except.ok (if threw1 = false ∧ pyStrip (accumulatePages "" pages1) ≠ ""
        then accumulatePages "" pages1
        else accumulatePages (accumulatePages "" pages1) pages2) := by
    cases threw1 with
    | true => simp [extract_text_core, extractMethod2_eq]
    | false =>
      by_cases h : pyStrip (accumulatePages "" pages1) ≠ ""
      · simp [extract_text_core, h]
      · simp [extract_text_core, h, extractMethod2_eq]
  refine ⟨⟨_, hchar⟩, hchar, ?_⟩
  intro h1 h2
  have e1 : accumulatePages "" pages1 = "" := accumulatePages_of_all_empty _ _ h1
  have e2 : accumulatePages (accumulatePages "" pages1) pages2 = accumulatePages "" pages1 :=
    accumulatePages_of_all_empty _ _ h2
  rw [e1] at e2
  have hs : pyStrip "" = "" := by decide
  rw [hchar, e1, e2, hs]
  simp

/-- Witness for C1 at a concrete input: both methods throw after
extracting only empty page texts, and the operation returns `ok ""`. -/
theorem C1_witness : extract_text_core ["", ""] true [] true = Except.ok "" :=
  (C1_partial_text_on_failure ["", ""] true [] true).2.2 (by decide) (by decide)

/-! ## Claim C2 -/

/-- Counterexample to claim C2 as stated: this input's direct-extraction
output has only 2 non-whitespace characters (far fewer than 50), yet
`parse_pdf` does not invoke OCR, because the code's trigger condition is
`len(text_content.strip()) < 50` — the length of the *stripped* string,
which still counts interior whitespace — not the number of non-whitespace
characters. -/
theorem C2_counterexample :
    extract_text_from_pdf c2Bytes = Except.ok c2Direct ∧
    countNonWs c2Direct < 50 ∧ (parse_pdf c2Bytes).1 = false := by
  refine ⟨rfl, by decide, by decide⟩

/-- Claim C2 amended: `parse_pdf` invokes OCR if and only if the
direct-extraction output, stripped of leading and trailing whitespace, has
length under 50 (interior whitespace still counts).  The claim's
"in particular" direction survives: whenever the direct output has at
least 50 non-whitespace characters, OCR is never invoked. -/
theorem C2_ocr_trigger (b : PdfBytes) (t : String)
    (h : extract_text_from_pdf b = Except.ok t) :
    (parse_pdf b).1 = decide ((pyStrip t).length < 50) ∧
    (50 ≤ countNonWs t → (parse_pdf b).1 = false) := by
  have hfst : (parse_pdf b).1 = (t = "" || decide ((pyStrip t).length < 50)) := by
    simp only [parse_pdf, h]
    split <;> split <;> rfl
  have hmain : (parse_pdf b).1 = decide ((pyStrip t).length < 50) := by
    rw [hfst]
    by_cases ht : t = ""
    · subst ht
      simp [pyStrip, stripChars]
    · simp [ht]
  refine ⟨hmain, fun h50 => ?_⟩
  rw [hmain]
  have hle : countNonWs t ≤ (pyStrip t).length := countNonWs_le_strip_length t
  simp only [decide_eq_false_iff_not, not_lt]
  omega

/-- Witness for C2 at a concrete input: the direct text is 60 characters
of real text, so OCR is skipped. -/
theorem C2_witness :
    (parse_pdf { pages1 := [String.mk (List.replicate 60 'x')] }).1 = false := by
  have h := C2_ocr_trigger { pages1 := [String.mk (List.replicate 60 'x')] }
    (String.mk (List.replicate 60 'x') ++ "\n") rfl
  exact h.2 (by decide)

/-! ## Claim C3 -/

/-- Counterexample to claim C3 as stated: `parse_fields("")` does *not*
leave every string field empty — the administrator fields are populated by
the random-pool fallback (shown here for injected index 0; every index
yields some non-empty pool name). -/
theorem C3_counterexample :
    (parse_text_content "" 0).administrator_name = "Michael [Administrator]" ∧
    (parse_text_content "" 0).administrator_first_name = "Michael" ∧
    (parse_text_content "" 0).administrator_name ≠ "" := by
  exact ⟨by decide, by decide, by decide⟩

/-- Claim C3 amended: `parse_fields("")` raises no exception (the
embedding is total) and returns a `ParsedFields` in which every field is
empty/default *except* the administrator fields, which carry a name drawn
from the fixed fallback pool, as `"{first} [Administrator]"`. -/
theorem C3_parse_fields_empty (rand : Nat) :
    (parse_text_content "" rand).raw_text = "" ∧
    (parse_text_content "" rand).facility_name = "" ∧
    (parse_text_content "" rand).facility_address = "" ∧
    (parse_text_content "" rand).facility_license_number = "" ∧
    (parse_text_content "" rand).enforcement_action_type = "" ∧
    (parse_text_content "" rand).penalty_amount = "" ∧
    (parse_text_content "" rand).violation_details = "" ∧
    (parse_text_content "" rand).corrective_actions = "" ∧
    (parse_text_content "" rand).effective_date = "" ∧
    (parse_text_content "" rand).contact_information = "" ∧
    (parse_text_content "" rand).key_violations = [] ∧
    ∃ n ∈ default_names,
      (parse_text_content "" rand).administrator_first_name = n ∧
      (parse_text_content "" rand).administrator_name = n ++ " [Administrator]" := by
  refine ⟨rfl, rfl, rfl, rfl, rfl, rfl, rfl, rfl, rfl, rfl, rfl, ?_⟩
  refine ⟨default_names.getD (rand % default_names.length) "Michael", ?_, rfl, rfl⟩
  have h : rand % default_names.length < default_names.length :=
    Nat.mod_lt _ (by decide)
  rw [List.getD_eq_getElem _ _ h]
  exact List.getElem_mem h

/-- Witness for C3 at a concrete injected index. -/
theorem C3_witness :
    (parse_text_content "" 7).facility_name = "" ∧
    (parse_text_content "" 7).key_violations = [] :=
  ⟨(C3_parse_fields_empty 7).2.1, (C3_parse_fields_empty 7).2.2.2.2.2.2.2.2.2.2.1⟩

/-! ## Claim C4 -/

/-- Counterexample to claim C4 as stated: on text containing
`penalty of $1,234`, field extraction captures `[0-9,]+`, so
`penalty_amount` is `"1,234"` (comma kept), not `"1234"`; reconciliation
strips only characters that are neither digits nor commas, so it formats
`"$1,234"`, not `"$1234"`. -/
theorem C4_counterexample :
    (parse_text_content c4Text 0).penalty_amount = "1,234" ∧
    (parse_text_content c4Text 0).penalty_amount ≠ "1234" ∧
    (process_entry c4Web (parse_text_content c4Text 0) 0).structured_data.penalty_amount =
      "$1,234" ∧
    (process_entry c4Web (parse_text_content c4Text 0) 0).structured_data.penalty_amount ≠
      "$1234" := by
  exact ⟨by decide, by decide, by decide, by decide⟩

/-- `String.mk` of a string's own character list is that string. -/
theorem stringMkData (s : String) : String.mk s.data = s := rfl

/-- Claim C4 amended: commas are preserved, not stripped.  On any PDF
value made of digits and commas, reconciliation returns exactly
`"$" ++` that value; and on the claim's text, extraction yields
`"1,234"` and reconciliation `"$1,234"`. -/
theorem C4_penalty_commas_preserved :
    (∀ pdf : PdfData, pdf.penalty_amount ≠ "" →
      (∀ c ∈ pdf.penalty_amount.data, isDigitComma c = true) →
      extract_penalty_amount pdf = "$" ++ pdf.penalty_amount) ∧
    (parse_text_content c4Text 0).penalty_amount = "1,234" ∧
    (process_entry c4Web (parse_text_content c4Text 0) 0).structured_data.penalty_amount =
      "$1,234" := by
  refine ⟨?_, by decide, by decide⟩
  intro pdf h hall
  have hclean : cleanPenalty pdf.penalty_amount = pdf.penalty_amount := by
    simp only [cleanPenalty]
    rw [List.filter_eq_self.mpr hall, stringMkData]
  simp only [extract_penalty_amount, hclean]
  simp [h]

/-- Witness for C4: reconciliation on the raw value `"1,234"`. -/
theorem C4_witness :
    extract_penalty_amount { penalty_amount := "1,234" } = "$" ++ "1,234" :=
  C4_penalty_commas_preserved.1 { penalty_amount := "1,234" } (by decide) (by decide)

/-! ## Claim C5 -/

/-- Counterexample to claim C5 as stated: when an extractor raises
mid-parse (here: fault injected at step 1, the address extractor), the
engine's `except` handler returns the `parsed_data` accumulated so far —
the facility name extracted before the exception survives, so the result
is *not* an entirely empty `ParsedFields`. -/
theorem C5_counterexample :
    (parse_text_content_fault c5Text 0 (some 1)).facility_name = "Grand Care Center" ∧
    (parse_text_content_fault c5Text 0 (some 1)).facility_name ≠ "" := by
  exact ⟨by decide, by decide⟩

/-- Claim C5 amended: a field-extractor exception is recovered at the
engine boundary (the engine always returns a `ParsedFields`, and
`parse_pdf`'s own handler is only for exceptions escaping the engine), but
the record is the *partially populated* one: every extractor that ran
before the exception keeps its extracted value, every later field keeps
its default, and the record is entirely empty only when the exception
precedes the first extractor. -/
theorem C5_partial_fields_survive (text : String) (rand k : Nat) :
    (parse_text_content_fault text rand (some k)).raw_text = text ∧
    (0 < k → (parse_text_content_fault text rand (some k)).facility_name =
      extract_facility_name_field text) ∧
    (k ≤ 0 → (parse_text_content_fault text rand (some k)).facility_name = "") ∧
    (1 < k → (parse_text_content_fault text rand (some k)).facility_address =
      extract_address_field text) ∧
    (k ≤ 1 → (parse_text_content_fault text rand (some k)).facility_address = "") ∧
    (2 < k → (parse_text_content_fault text rand (some k)).facility_license_number =
      extract_license_field text) ∧
    (k ≤ 2 → (parse_text_content_fault text rand (some k)).facility_license_number = "") ∧
    (3 < k → (parse_text_content_fault text rand (some k)).penalty_amount =
      extract_penalty_field text) ∧
    (k ≤ 3 → (parse_text_content_fault text rand (some k)).penalty_amount = "") ∧
    (4 < k → (parse_text_content_fault text rand (some k)).enforcement_action_type =
      extract_action_type_field text) ∧
    (k ≤ 4 → (parse_text_content_fault text rand (some k)).enforcement_action_type = "") ∧
    (5 < k → (parse_text_content_fault text rand (some k)).violation_details =
      extract_violation_section_field text) ∧
    (k ≤ 5 → (parse_text_content_fault text rand (some k)).violation_details = "") ∧
    (6 < k → (parse_text_content_fault text rand (some k)).key_violations =
      extract_key_violations_list text) ∧
    (k ≤ 6 → (parse_text_content_fault text rand (some k)).key_violations = []) ∧
    (7 < k → (parse_text_content_fault text rand (some k)).effective_date =
      extract_effective_date_field text) ∧
    (k ≤ 7 → (parse_text_content_fault text rand (some k)).effective_date = "") ∧
    (8 < k → (parse_text_content_fault text rand (some k)).contact_information =
      extract_contact_field text) ∧
    (k ≤ 8 → (parse_text_content_fault text rand (some k)).contact_information = "") ∧
    (k ≤ 9 → (parse_text_content_fault text rand (some k)).administrator_name = "" ∧
      (parse_text_content_fault text rand (some k)).administrator_first_name = "") ∧
    (9 < k → parse_text_content_fault text rand (some k) = parse_text_content text rand) := by
  rcases Nat.lt_or_ge k 10 with hk | hk
  · interval_cases k <;>
      simp [parse_text_content_fault, parse_text_content, initFields]
  · have e0 : k ≠ 0 := by omega
    have e1 : k ≠ 1 := by omega
    have e2 : k ≠ 2 := by omega
    have e3 : k ≠ 3 := by omega
    have e4 : k ≠ 4 := by omega
    have e5 : k ≠ 5 := by omega
    have e6 : k ≠ 6 := by omega
    have e7 : k ≠ 7 := by omega
    have e8 : k ≠ 8 := by omega
    have e9 : k ≠ 9 := by omega
    have f0 : ¬ k ≤ 0 := by omega
    have f1 : ¬ k ≤ 1 := by omega
    have f2 : ¬ k ≤ 2 := by omega
    have f3 : ¬ k ≤ 3 := by omega
    have f4 : ¬ k ≤ 4 := by omega
    have f5 : ¬ k ≤ 5 := by omega
    have f6 : ¬ k ≤ 6 := by omega
    have f7 : ¬ k ≤ 7 := by omega
    have f8 : ¬ k ≤ 8 := by omega
    have f9 : ¬ k ≤ 9 := by omega
    simp [parse_text_content_fault, parse_text_content, initFields, e0, e1, e2, e3,
      e4, e5, e6, e7, e8, e9, f0, f1, f2, f3, f4, f5, f6, f7, f8, f9]

/-- Witness for C5 at a concrete text and fault position: the facility
name extracted at step 0 survives a fault at step 2. -/
theorem C5_witness :
    (parse_text_content_fault c5Text 3 (some 2)).facility_name =
      extract_facility_name_field c5Text :=
  (C5_partial_fields_survive c5Text 3 2).2.1 (by decide)

/-! ## Claim C6 -/

/-- The recency bonus is between 0 and 10. -/
theorem recencyBonus_bounds (now d : Int) :
    0 ≤ recencyBonus now d ∧ recencyBonus now d ≤ 10 := by
  unfold recencyBonus
  split_ifs <;> omega

/-- Claim C6: `_assess_severity` implements exactly the spec's
priority-ordered cascade (first match wins), and in particular for action
type `Suspension` with penalty `$0` — whatever the entry date and current
time — the severity is HIGH (the action-type rule fires before the penalty
rule) and the priority score is at least 40. -/
theorem C6_severity_priority_order :
    (∀ (web : WebEntry) (pdf : PdfData), assess_severity web pdf = severity_spec web pdf) ∧
    (∀ (dt : Option Int) (now : Int),
      assess_severity (c6Web dt) c6Pdf = "HIGH" ∧
      40 ≤ calculate_priority_score (c6Web dt) c6Pdf now) := by
  constructor
  · intro web pdf
    cases hA : penaltyValue (extract_penalty_amount pdf) with
    | none => simp [assess_severity, severity_spec, mediumIndicator, hA]
    | some a => simp [assess_severity, severity_spec, mediumIndicator, hA]
  · intro dt now
    refine ⟨rfl, ?_⟩
    show 40 ≤ min ((40 : Int) + 0 + 0 +
      (match (c6Web dt).date with | some d => recencyBonus now d | none => 0)) 100
    have hb : 0 ≤ (match (c6Web dt).date with | some d => recencyBonus now d | none => 0) ∧
        (match (c6Web dt).date with | some d => recencyBonus now d | none => 0) ≤ 10 := by
      cases dt with
      | none => simp [c6Web]
      | some d => simpa [c6Web] using recencyBonus_bounds now d
    rw [Int.min_def]
    split_ifs <;> omega

/-- Witness for C6 at concrete inputs: severity and score for
`Suspension` with `$0` on a dated entry. -/
theorem C6_witness :
    assess_severity (c6Web (some 0)) c6Pdf = "HIGH" ∧
    40 ≤ calculate_priority_score (c6Web (some 0)) c6Pdf 3 :=
  C6_severity_priority_order.2 (some 0) 3

/-! ## Claim C7 -/

/-- Claim C7: in every record `process_entry` produces, the validation
sub-record satisfies `valid = false` exactly when the errors list is
non-empty, and an empty reconciled facility name yields `valid = false`
with errors exactly `["Missing facility name"]` — the only hard error;
every other quality issue is a warning. -/
theorem C7_validation_invariant (web : WebEntry) (pdf : PdfData) (now : Int) :
    ((process_entry web pdf now).validation.valid = false ↔
      (process_entry web pdf now).validation.errors ≠ []) ∧
    ((process_entry web pdf now).structured_data.facility_name = "" →
      (process_entry web pdf now).validation.valid = false ∧
      (process_entry web pdf now).validation.errors = ["Missing facility name"]) := by
  by_cases h : (extract_structured_data web pdf now).facility_name = ""
  · constructor
    · simp [process_entry, validate_data, h]
    · intro _
      simp [process_entry, validate_data, h]
  · constructor
    · simp [process_entry, validate_data, h]
    · intro hcontr
      exact absurd hcontr h

/-- Witness for C7: both sources lack a facility name, so the record is
invalid with exactly the missing-facility error. -/
theorem C7_witness :
    (process_entry {} {} 0).validation.valid = false ∧
    (process_entry {} {} 0).validation.errors = ["Missing facility name"] :=
  (C7_validation_invariant {} {} 0).2 (by decide)

/-! ## Claim C8 -/

set_option maxRecDepth 100000 in
/-- Counterexample to claim C8 as stated: items do *not* always appear in
document order.  The numbered-item pattern is scanned before the
bulleted-item pattern and each pattern's hits are concatenated, so the
numbered item at character offset 41 precedes the bulleted item at
character offset 2 in the result. -/
theorem C8_counterexample :
    extract_key_violations_list c8OrderText = [c8NumberItem, c8BulletItem] ∧
    occIdx c8OrderText c8BulletItem = some 2 ∧
    occIdx c8OrderText c8NumberItem = some 41 := by
  exact ⟨by decide, by decide, by decide⟩

set_option maxRecDepth 100000 in
/-- Claim C8 amended: `key_violations` always has at most 10 items, each
longer than 20 characters; order is document order *within one list
style* (in particular, six numbered items come back as exactly those six
in order, and of twelve numbered items only the first ten survive), but
across styles the lists are concatenated in pattern-scan order
(numbered, bulleted, lettered), not document order. -/
theorem C8_key_violations_bounds :
    (∀ text : String, (extract_key_violations_list text).length ≤ 10) ∧
    (∀ (text v : String), v ∈ extract_key_violations_list text → 20 < v.length) ∧
    extract_key_violations_list c8SixText = c8Six ∧
    extract_key_violations_list c8TwelveText = c8Twelve.take 10 := by
  refine ⟨?_, ?_, by decide, by decide⟩
  · intro text
    simp [extract_key_violations_list]
  · intro text v hv
    simp only [extract_key_violations_list] at hv
    have hv2 := List.take_subset 10 _ hv
    rcases List.mem_append.mp hv2 with hv3 | hv3
    · rcases List.mem_append.mp hv3 with hv4 | hv4 <;>
        simpa using (List.mem_filter.mp hv4).2
    · simpa using (List.mem_filter.mp hv3).2

set_option maxRecDepth 100000 in
/-- Witness for C8: an item of the six-item document is indeed longer
than 20 characters. -/
theorem C8_witness : 20 < ("overcrowded resident rooms found" : String).length :=
  C8_key_violations_bounds.2.1 c8SixText "overcrowded resident rooms found" (by decide)

/-! ## Claim C9 -/

/-- Counterexample to claim C9 as stated: two `process_entry` calls on the
same `(web_entry, parsed_fields)` pair do *not* yield records identical up
to the `scraped_at` timestamp — the priority score reads the current time
through the recency bonus, so a call on the entry's day scores 30 while a
call 100 days later scores 20.  (The administrator-name randomness lives
in the PDF parser, before `process_entry`, so it is not even in play
here.) -/
theorem C9_counterexample :
    (process_entry c9Web {} 0).structured_data.priority_score = 30 ∧
    (process_entry c9Web {} 100).structured_data.priority_score = 20 := by
  exact ⟨by decide, by decide⟩

/-- Claim C9 amended: given the same `(web_entry, parsed_fields)` pair,
`process_entry` is deterministic given the current time; across two calls
at different times on a dated entry, the id, source data, validation
sub-record and every structured field except `priority_score` coincide,
and the records are identical up to `scraped_at` exactly when the two
times land in the same recency bucket.  (On an entry with no date, the id
itself also embeds the current date via `web_entry.get('date',
datetime.now())`.) -/
theorem C9_determinism (web : WebEntry) (pdf : PdfData) (t1 t2 d : Int)
    (hd : web.date = some d) :
    (process_entry web pdf t1).id = (process_entry web pdf t2).id ∧
    (process_entry web pdf t1).web_data = (process_entry web pdf t2).web_data ∧
    (process_entry web pdf t1).pdf_data = (process_entry web pdf t2).pdf_data ∧
    (process_entry web pdf t1).validation = (process_entry web pdf t2).validation ∧
    { (process_entry web pdf t1).structured_data with priority_score := 0 } =
      { (process_entry web pdf t2).structured_data with priority_score := 0 } ∧
    (recencyBonus t1 d = recencyBonus t2 d →
      process_entry web pdf t1 = { process_entry web pdf t2 with scraped_at := t1 }) := by
  have hprio : recencyBonus t1 d = recencyBonus t2 d →
      calculate_priority_score web pdf t1 = calculate_priority_score web pdf t2 := by
    intro hr
    simp [calculate_priority_score, hd, hr]
  refine ⟨?_, rfl, rfl, rfl, ?_, ?_⟩
  · simp [process_entry, generate_entry_id, hd]
  · simp [process_entry, extract_structured_data]
  · intro hr
    simp only [process_entry, extract_structured_data]
    congr 1
    · simp [generate_entry_id, hd]
    · congr 1
      exact hprio hr

/-- Witness for C9: times 3 and 4 are in the same recency bucket of an
entry dated day 0, so the two records agree except for `scraped_at`. -/
theorem C9_witness :
    process_entry c9Web {} 3 = { process_entry c9Web {} 4 with scraped_at := 3 } :=
  (C9_determinism c9Web {} 3 4 0 rfl).2.2.2.2.2 (by decide)

/-! ## Claim C10 -/

/-- Claim C10: the reconciled penalty amount is either empty or `"$"`
followed by a non-empty string of digits and commas, which always matches
the validation pattern `^\$?[\d,]+$`; therefore the "Penalty amount
format may be incorrect" warning branch of `_validate_data` is unreachable
for records built by `process_entry`. -/
theorem C10_penalty_warning_unreachable (pdf : PdfData) :
    (extract_penalty_amount pdf = "" ∨
      penaltyFormatOk (extract_penalty_amount pdf) = true) ∧
    (∀ (web : WebEntry) (now : Int),
      "Penalty amount format may be incorrect" ∉
        (process_entry web pdf now).validation.warnings) := by
  have hmain : extract_penalty_amount pdf = "" ∨
      penaltyFormatOk (extract_penalty_amount pdf) = true := by
    by_cases h : pdf.penalty_amount = ""
    · left
      simp [extract_penalty_amount, h]
    · by_cases hc : cleanPenalty pdf.penalty_amount = ""
      · left
        simp [extract_penalty_amount, h, hc]
      · right
        have he : extract_penalty_amount pdf = "$" ++ cleanPenalty pdf.penalty_amount := by
          simp [extract_penalty_amount, h, hc]
        rw [he]
        have hdata : ("$" ++ cleanPenalty pdf.penalty_amount).data =
            '$' :: (pdf.penalty_amount.data.filter isDigitComma) := by
          simp [cleanPenalty, String.data_append]
        have hne : pdf.penalty_amount.data.filter isDigitComma ≠ [] := by
          intro hnil
          exact hc (by simp [cleanPenalty, hnil])
        have hall : ∀ c ∈ pdf.penalty_amount.data.filter isDigitComma,
            isDigitComma c = true := fun c hcmem => List.of_mem_filter hcmem
        have hlast : (pdf.penalty_amount.data.filter isDigitComma).getLast? ≠ some '\n' := by
          intro hl
          have hopt : '\n' ∈ (pdf.penalty_amount.data.filter isDigitComma).getLast? := by
            rw [Option.mem_def]
            exact hl
          rcases List.mem_getLast?_eq_getLast hopt with ⟨hne2, heq⟩
          have hmem : '\n' ∈ pdf.penalty_amount.data.filter isDigitComma := by
            rw [heq]
            exact List.getLast_mem hne2
          have := hall '\n' hmem
          simp [isDigitComma] at this
        simp only [penaltyFormatOk, hdata, List.head?_cons, List.tail_cons,
          eq_self_iff_true, if_true]
        rw [if_neg hlast]
        simp [hne, List.all_eq_true.mpr hall]
  refine ⟨hmain, ?_⟩
  intro web now
  have hwpen : (if (extract_structured_data web pdf now).penalty_amount ≠ "" ∧
      ¬ penaltyFormatOk (extract_structured_data web pdf now).penalty_amount then
      (["Penalty amount format may be incorrect"] : List String) else []) = [] := by
    rcases hmain with h | h <;>
      simp [extract_structured_data, h]
  have hA : "Penalty amount format may be incorrect" ∉
      (if (extract_structured_data web pdf now).enforcement_action_type = "" then
        (["Missing enforcement action type"] : List String) else []) := by
    split_ifs <;> decide
  have hB : "Penalty amount format may be incorrect" ∉
      (if (extract_structured_data web pdf now).enforcement_date = "" then
        (["Missing enforcement date"] : List String) else []) := by
    split_ifs <;> decide
  have hD : "Penalty amount format may be incorrect" ∉
      (if (extract_structured_data web pdf now).facility_license_number ≠ "" ∧
          (extract_structured_data web pdf now).facility_license_number.length < 3 then
        (["License number seems too short"] : List String) else []) := by
    split_ifs <;> decide
  show "Penalty amount format may be incorrect" ∉
    (validate_data (extract_structured_data web pdf now)).warnings
  intro hx
  simp only [validate_data, hwpen, List.append_nil, List.mem_append] at hx
  rcases hx with (hx | hx) | hx
  · exact hA hx
  · exact hB hx
  · exact hD hx

/-- Witness for C10 at a concrete input: a comma-bearing penalty passes
the validation pattern and produces no format warning. -/
theorem C10_witness :
    "Penalty amount format may be incorrect" ∉
      (process_entry c4Web { penalty_amount := "12,500" } 0).validation.warnings :=
  (C10_penalty_warning_unreachable { penalty_amount := "12,500" }).2 c4Web 0
